import Mathlib

/-
Verification of the DNS-record evaluation engine of
JohnDCyber_SPF_DKIM_DMARC_SCANNER.py.

The Python source is shallowly embedded as follows:

* Python strings are Lean `String`s; `str.lower()` is `lowerStr`
  (character-wise `Char.toLower`), and the Python substring test
  `needle in hay` is `containsSub`.
* A DNS query outcome (the behaviour of `resolver.resolve`) is a
  `DnsResp`: a successful answer carries the list of TXT records, each a
  list of byte-string segments (`rdata.strings`); the exceptional
  outcomes `NXDOMAIN`, `NoAnswer`, timeout and other `DNSException`s are
  the remaining constructors.
* The network is a `DnsEnv`: one function for TXT queries and one for A
  queries, each from the queried name to its `DnsResp`.
* `check_dns_records`, `worker` and the result-collection loop of
  `main` are translated function by function; the nondeterministic
  `as_completed` order is modelled by quantifying over any permutation
  of the submitted task list.
-/

namespace Scanner

/-- Character-wise lowercasing, embedding Python `str.lower()`. -/
def lowerStr (s : String) : String := ⟨s.data.map Char.toLower⟩

/-- Worker of `containsSub` on character lists: does `n` occur as a
contiguous run inside the second list? -/
def strContainsGo (n : List Char) : List Char → Bool
  | [] => n.isEmpty
  | c :: rest => n.isPrefixOf (c :: rest) || strContainsGo n rest

/-- Embedding of the Python substring test `needle in hay`. -/
def containsSub (needle hay : String) : Bool :=
  strContainsGo needle.data hay.data

/-- `validate_spf` (source lines 25-31): lowercase, then require the
substrings `v=spf1` and `all`. -/
def validate_spf (record_content : String) : Bool :=
  let record_lower := lowerStr record_content
  containsSub "v=spf1" record_lower && containsSub "all" record_lower

/-- `validate_dmarc` (source lines 33-43): lowercase, then require
`v=dmarc1` and one of the three policy substrings. -/
def validate_dmarc (record_content : String) : Bool :=
  let lower := lowerStr record_content
  containsSub "v=dmarc1" lower &&
    ["p=none", "p=quarantine", "p=reject"].any (fun pol => containsSub pol lower)

/-- `validate_dkim` (source lines 45-52): lowercase, then require
`v=dkim1` and `p=`. -/
def validate_dkim (record_content : String) : Bool :=
  let lower := lowerStr record_content
  containsSub "v=dkim1" lower && containsSub "p=" lower

/-- Outcome of one DNS query (`resolver.resolve`).  `ans` is a
successful answer: a list of records, each a list of segments
(`rdata.strings`).  The other constructors are the exceptions the
source catches: `dns.resolver.NXDOMAIN`, `dns.resolver.NoAnswer`, a
query timeout, and any other `dns.exception.DNSException`. -/
inductive DnsResp where
  | ans (records : List (List String))
  | nxdomain
  | noAnswer
  | timeout
  | dnsError
deriving DecidableEq, Repr

/-- The DNS network seen by one evaluation: the outcome of the TXT
query and of the A query at each name. -/
structure DnsEnv where
  txt : String → DnsResp
  a : String → DnsResp

/-- `"".join(part.decode() for part in rdata.strings)` (source lines
76, 87, 103): the segments of one record concatenated in order. -/
def recordText (rdata : List String) : String := String.join rdata

/-- The record-scanning loop shared by the three TXT checks: the field
is set to Pass at the first record whose concatenated text validates,
which leaves it Pass exactly when some record validates. -/
def anyValid (valid : String → Bool) (records : List (List String)) : Bool :=
  records.any (fun rdata => valid (recordText rdata))

/-- Verdict of one TXT sub-check (source lines 72-92): an answer with a
validating record gives Pass; an answer without one, or any caught
exception, leaves the initial Fail. -/
def txtVerdict (valid : String → Bool) (resp : DnsResp) : String :=
  match resp with
  | .ans records => if anyValid valid records then "Pass" else "Fail"
  | _ => "Fail"

/-- `f"{selector}._domainkey.{domain}"` (source line 99). -/
def dkimName (selector domain : String) : String :=
  selector ++ "._domainkey." ++ domain

/-- One iteration of the DKIM selector loop (source lines 98-110): the
selector succeeds when its TXT query answers and some record
validates; a caught exception or a non-validating answer fails it. -/
def selectorPass (env : DnsEnv) (domain selector : String) : Bool :=
  match env.txt (dkimName selector domain) with
  | .ans records => anyValid validate_dkim records
  | _ => false

/-- The DKIM selector sweep (source lines 98-110): selectors in order,
stop at the first success, Fail after exhausting the list. -/
def dkimLoop (env : DnsEnv) (domain : String) : List String → String
  | [] => "Fail"
  | selector :: rest =>
    if selectorPass env domain selector then "Pass"
    else dkimLoop env domain rest

/-- The per-domain result dictionary built by `check_dns_records`
(source lines 58-65), one field per key. -/
structure DomainResult where
  domain : String
  spf : String
  dkim : String
  dmarc : String
  vulnerableToSpoofing : String
  potentialSubdomainTakeover : String
deriving DecidableEq, Repr

/-- `check_dns_records` (source lines 54-125): SPF check, DMARC check,
DKIM sweep (Unknown when the selector list is empty), spoofing
derivation, and the subdomain-takeover heuristic on the apex A query. -/
def check_dns_records (domain : String) (known_dkim_selectors : List String)
    (env : DnsEnv) : DomainResult :=
  let spf := txtVerdict validate_spf (env.txt domain)
  let dmarc := txtVerdict validate_dmarc (env.txt ("_dmarc." ++ domain))
  let dkim :=
    if known_dkim_selectors.isEmpty then "Unknown"
    else dkimLoop env domain known_dkim_selectors
  let vuln := if spf = "Pass" ∧ dmarc = "Pass" then "No" else "Yes"
  let takeover :=
    match env.a domain with
    | .ans _ => "No"
    | .nxdomain => "Yes"
    | _ => "Unknown"
  { domain := domain, spf := spf, dkim := dkim, dmarc := dmarc,
    vulnerableToSpoofing := vuln, potentialSubdomainTakeover := takeover }

/-- Whether one evaluation task ran to completion or raised an
unexpected exception (the `except Exception` arm of `worker`). -/
inductive EvalOutcome where
  | ok (env : DnsEnv)
  | fatal

/-- The all-Error dictionary `worker` synthesizes (source lines
135-142). -/
def errorResult (domain : String) : DomainResult :=
  { domain := domain, spf := "Error", dkim := "Error", dmarc := "Error",
    vulnerableToSpoofing := "Error", potentialSubdomainTakeover := "Error" }

/-- `worker` (source lines 127-142): run the evaluation, or synthesize
the all-Error result when the evaluation itself raised. -/
def worker (domain : String) (known_dkim_selectors : List String)
    (outcome : EvalOutcome) : DomainResult :=
  match outcome with
  | .ok env => check_dns_records domain known_dkim_selectors env
  | .fatal => errorResult domain

/-- One progress notification (the `[INFO] Checked ...` line of `main`,
source lines 378-379): the completed counter after this completion, the
total task count, and the printed percentage as an exact rational. -/
structure Progress where
  domain : String
  completed : Nat
  total : Nat
  pct : ℚ
deriving DecidableEq, Repr

/-- The `as_completed` collection loop of `main` (source lines
370-381): for each completion in order, accept the worker's result,
bump the counter and emit a progress notification. -/
def collectLoop (selectors : List String) (total : Nat) :
    List (String × EvalOutcome) → Nat → List DomainResult × List Progress
  | [], _ => ([], [])
  | (domain, outcome) :: rest, completed =>
    let result := worker domain selectors outcome
    let done := completed + 1
    let prog : Progress :=
      { domain := domain, completed := done, total := total,
        pct := ((done : ℚ) / (total : ℚ)) * 100 }
    let tail := collectLoop selectors total rest done
    (result :: tail.1, prog :: tail.2)

/-- The whole collection phase of `main`, started with counter 0 and
total equal to the number of submitted tasks, consuming the completions
in the (arbitrary) order they finish. -/
def runScan (selectors : List String) (completions : List (String × EvalOutcome)) :
    List DomainResult × List Progress :=
  collectLoop selectors completions.length completions 0

/-! ### Bridge lemmas for the substring test -/

theorem strContainsGo_iff (n : List Char) :
    ∀ l : List Char, strContainsGo n l = true ↔ n <:+: l := by
  intro l
  induction l with
  | nil =>
    simp [strContainsGo, List.isEmpty_iff, List.infix_nil]
  | cons c rest ih =>
    simp [strContainsGo, List.infix_cons_iff, ih, List.isPrefixOf_iff_prefix]

theorem containsSub_iff (needle hay : String) :
    containsSub needle hay = true ↔ needle.data <:+: hay.data :=
  strContainsGo_iff needle.data hay.data

/-! ### Lemmas about the TXT sub-check verdict -/

theorem anyValid_iff (valid : String → Bool) (records : List (List String)) :
    anyValid valid records = true ↔
      ∃ rdata ∈ records, valid (recordText rdata) = true := by
  simp [anyValid, List.any_eq_true]

theorem txtVerdict_ans_pass_iff (valid : String → Bool)
    (records : List (List String)) :
    txtVerdict valid (DnsResp.ans records) = "Pass" ↔
      ∃ rdata ∈ records, valid (recordText rdata) = true := by
  rw [← anyValid_iff]
  cases hv : anyValid valid records with
  | true => simp [txtVerdict, hv]
  | false => simp [txtVerdict, hv]

/-! ### Lemmas about the DKIM sweep -/

theorem dkimLoop_pass_iff (env : DnsEnv) (domain : String) :
    ∀ selectors : List String,
      dkimLoop env domain selectors = "Pass" ↔
        ∃ s ∈ selectors, selectorPass env domain s = true := by
  intro selectors
  induction selectors with
  | nil => simp [dkimLoop]
  | cons s rest ih =>
    cases h : selectorPass env domain s with
    | true => simp [dkimLoop, h]
    | false => simp [dkimLoop, h, ih]

theorem dkimLoop_fail_iff (env : DnsEnv) (domain : String) :
    ∀ selectors : List String,
      dkimLoop env domain selectors = "Fail" ↔
        ∀ s ∈ selectors, selectorPass env domain s = false := by
  intro selectors
  induction selectors with
  | nil => simp [dkimLoop]
  | cons s rest ih =>
    cases h : selectorPass env domain s with
    | true => simp [dkimLoop, h]
    | false => simp [dkimLoop, h, ih]

theorem dkimLoop_pass_or_fail (env : DnsEnv) (domain : String) :
    ∀ selectors : List String,
      dkimLoop env domain selectors = "Pass" ∨
      dkimLoop env domain selectors = "Fail" := by
  intro selectors
  induction selectors with
  | nil => right; rfl
  | cons s rest ih =>
    cases h : selectorPass env domain s with
    | true => left; simp [dkimLoop, h]
    | false => simpa [dkimLoop, h] using ih

/-! ### Claim theorems: validators and the per-domain evaluator -/

/-- C6: `validate_spf text` is true exactly when the lowercased text
contains the substring `v=spf1` and also contains the substring `all`
anywhere; no mechanism syntax is parsed. -/
theorem validate_spf_iff (text : String) :
    validate_spf text = true ↔
      ("v=spf1".data <:+: (lowerStr text).data ∧
       "all".data <:+: (lowerStr text).data) := by
  simp [validate_spf, Bool.and_eq_true, containsSub_iff]

/-- C7: with an empty DKIM selector list, the completed evaluation
reports `dkim = "Unknown"` for every domain and every DNS behaviour. -/
theorem empty_selectors_dkim_unknown (domain : String) (env : DnsEnv) :
    (check_dns_records domain [] env).dkim = "Unknown" := by
  simp [check_dns_records]

/-- C1: in every evaluation that runs to completion (the non-Error
path), the spoofing field is `"No"` exactly when both the SPF and the
DMARC field are `"Pass"`, and `"Yes"` in every other case. -/
theorem spoofing_invariant (domain : String) (selectors : List String)
    (env : DnsEnv) :
    ((check_dns_records domain selectors env).vulnerableToSpoofing = "No" ↔
      ((check_dns_records domain selectors env).spf = "Pass" ∧
       (check_dns_records domain selectors env).dmarc = "Pass")) ∧
    ((check_dns_records domain selectors env).vulnerableToSpoofing = "Yes" ↔
      ¬((check_dns_records domain selectors env).spf = "Pass" ∧
        (check_dns_records domain selectors env).dmarc = "Pass")) := by
  by_cases h : txtVerdict validate_spf (env.txt domain) = "Pass" ∧
      txtVerdict validate_dmarc (env.txt ("_dmarc." ++ domain)) = "Pass"
  · simp [check_dns_records, h]
  · simp [check_dns_records, h]

/-- C3: the takeover field is classified three ways from the apex A
query: a successful answer gives `"No"`, definitive non-existence
(NXDOMAIN) gives `"Yes"`, and an empty answer, timeout or other
transport error leaves the initial `"Unknown"`. -/
theorem takeover_classification (domain : String) (selectors : List String)
    (env : DnsEnv) :
    (∀ records, env.a domain = DnsResp.ans records →
        (check_dns_records domain selectors env).potentialSubdomainTakeover =
          "No") ∧
    (env.a domain = DnsResp.nxdomain →
        (check_dns_records domain selectors env).potentialSubdomainTakeover =
          "Yes") ∧
    ((env.a domain = DnsResp.noAnswer ∨ env.a domain = DnsResp.timeout ∨
        env.a domain = DnsResp.dnsError) →
        (check_dns_records domain selectors env).potentialSubdomainTakeover =
          "Unknown") := by
  refine ⟨?_, ?_, ?_⟩
  · intro records h
    simp [check_dns_records, h]
  · intro h
    simp [check_dns_records, h]
  · rintro (h | h | h) <;> simp [check_dns_records, h]

/-- A DNS behaviour where every TXT query errors and the apex A query
reports definitive non-existence. -/
def envNx : DnsEnv :=
  { txt := fun _ => DnsResp.dnsError, a := fun _ => DnsResp.nxdomain }

/-- Witness for C3 at a concrete domain and DNS behaviour. -/
theorem takeover_classification_witness :
    (check_dns_records "example.com" [] envNx).potentialSubdomainTakeover =
      "Yes" :=
  (takeover_classification "example.com" [] envNx).2.1 rfl

/-- C9: with a non-empty selector list, a completed (non-Error)
evaluation reports `dkim = "Pass"` or `dkim = "Fail"`, never
`"Unknown"`. -/
theorem nonempty_selectors_dkim_pass_or_fail (domain : String)
    (selectors : List String) (env : DnsEnv) (h : selectors ≠ []) :
    (check_dns_records domain selectors env).dkim = "Pass" ∨
    (check_dns_records domain selectors env).dkim = "Fail" := by
  have hne : selectors.isEmpty = false := by
    cases selectors with
    | nil => exact absurd rfl h
    | cons a l => rfl
  simpa [check_dns_records, hne] using dkimLoop_pass_or_fail env domain selectors

/-- Witness for C9 at a concrete domain, selector list and DNS
behaviour. -/
theorem nonempty_selectors_dkim_witness :
    (check_dns_records "example.com" ["default"] envNx).dkim = "Pass" ∨
    (check_dns_records "example.com" ["default"] envNx).dkim = "Fail" :=
  nonempty_selectors_dkim_pass_or_fail "example.com" ["default"] envNx
    (List.cons_ne_nil _ _)

/-- C4: with a non-empty selector list the DKIM field is the selector
sweep; the sweep yields `"Pass"` as soon as the head selector's answer
holds a record passing `validate_dkim` (later selectors untouched), a
failing head selector hands over to the remaining selectors unchanged,
`"Pass"` overall exactly when some selector in the list succeeds, and
`"Fail"` exactly when every selector was tried and none succeeded. -/
theorem dkim_sweep_order (env : DnsEnv) (domain selector : String)
    (rest : List String) :
    (check_dns_records domain (selector :: rest) env).dkim =
        dkimLoop env domain (selector :: rest) ∧
    (selectorPass env domain selector = true →
        dkimLoop env domain (selector :: rest) = "Pass") ∧
    (selectorPass env domain selector = false →
        dkimLoop env domain (selector :: rest) =
          dkimLoop env domain rest) ∧
    (dkimLoop env domain (selector :: rest) = "Pass" ↔
        ∃ s ∈ selector :: rest, selectorPass env domain s = true) ∧
    (dkimLoop env domain (selector :: rest) = "Fail" ↔
        ∀ s ∈ selector :: rest, selectorPass env domain s = false) := by
  refine ⟨rfl, ?_, ?_, dkimLoop_pass_iff env domain _,
    dkimLoop_fail_iff env domain _⟩
  · intro h
    simp [dkimLoop, h]
  · intro h
    simp [dkimLoop, h]

/-- A DNS behaviour where only the second configured selector publishes
a valid DKIM key record. -/
def envDkim : DnsEnv :=
  { txt := fun name =>
      if name = dkimName "s2" "example.com" then
        DnsResp.ans [["v=DKIM1; k=rsa; ", "p=MIGfMA0"]]
      else DnsResp.noAnswer,
    a := fun _ => DnsResp.ans [["192.0.2.1"]] }

/-- Witness for C4: selectors `[s1, s2]` where only `s2` yields a valid
record still produce `dkim = "Pass"`. -/
theorem dkim_sweep_order_witness :
    (check_dns_records "example.com" ["s1", "s2"] envDkim).dkim = "Pass" := by
  have h := dkim_sweep_order envDkim "example.com" "s1" ["s2"]
  have h2 := dkim_sweep_order envDkim "example.com" "s2" []
  have hs1 : selectorPass envDkim "example.com" "s1" = false := by decide
  have hs2 : selectorPass envDkim "example.com" "s2" = true := by decide
  rw [h.1, h.2.2.1 hs1, h2.2.1 hs2]

/-- The three-segment SPF record from the specification's example. -/
def spfSegs : List String := ["v=spf1 ", "include:example.com ", "-all"]

/-- C5: the SPF verdict tests each record's segments concatenated in
order: whenever the apex TXT query answers, the field is `"Pass"`
exactly when some record's concatenation passes `validate_spf`; the
spec's three-segment record passes after concatenation while each of
its segments taken alone fails the validator. -/
theorem spf_segment_concat :
    (∀ (domain : String) (selectors : List String) (env : DnsEnv)
        (records : List (List String)),
      env.txt domain = DnsResp.ans records →
        ((check_dns_records domain selectors env).spf = "Pass" ↔
          ∃ rdata ∈ records, validate_spf (recordText rdata) = true)) ∧
    validate_spf (recordText spfSegs) = true ∧
    (∀ seg ∈ spfSegs, validate_spf seg = false) := by
  refine ⟨?_, by decide, by decide⟩
  intro domain selectors env records h
  have hspf : (check_dns_records domain selectors env).spf =
      txtVerdict validate_spf (env.txt domain) := rfl
  rw [hspf, h, txtVerdict_ans_pass_iff]

/-- A DNS behaviour whose apex TXT answer is exactly the three-segment
SPF record. -/
def envSpf : DnsEnv :=
  { txt := fun name =>
      if name = "example.com" then DnsResp.ans [spfSegs]
      else DnsResp.noAnswer,
    a := fun _ => DnsResp.ans [["192.0.2.1"]] }

/-- Witness for C5: the three-segment record yields `spf = "Pass"` on a
concrete evaluation. -/
theorem spf_segment_concat_witness :
    (check_dns_records "example.com" [] envSpf).spf = "Pass" := by
  have h := spf_segment_concat
  exact (h.1 "example.com" [] envSpf [spfSegs] (by decide)).mpr
    ⟨spfSegs, by decide, h.2.1⟩

/-- The DMARC record with a subdomain policy tag but no policy tag of
its own, from the spec's edge case. -/
def dmarcSample : String := "v=DMARC1; sp=none"

/-- C10: `validate_dmarc` accepts `"v=DMARC1; sp=none"` although the
record carries no `p=` tag of its own: every occurrence of `p=` in the
lowercased record sits immediately after an `s`, inside the `sp=none`
subdomain-policy tag. -/
theorem dmarc_sp_none_accepted :
    validate_dmarc dmarcSample = true ∧
    ∀ i < (lowerStr dmarcSample).data.length,
      ("p=".data <+: ((lowerStr dmarcSample).data.drop i)) →
        0 < i ∧ (lowerStr dmarcSample).data.getD (i - 1) ' ' = 's' := by
  decide

/-! ### Lemmas about the collection loop -/

theorem worker_domain (domain : String) (selectors : List String)
    (outcome : EvalOutcome) :
    (worker domain selectors outcome).domain = domain := by
  cases outcome with
  | ok env => rfl
  | fatal => rfl

theorem collectLoop_fst (selectors : List String) (total : Nat) :
    ∀ (order : List (String × EvalOutcome)) (completed : Nat),
      (collectLoop selectors total order completed).1 =
        order.map (fun t => worker t.1 selectors t.2) := by
  intro order
  induction order with
  | nil => intro c; rfl
  | cons t rest ih =>
    intro c
    cases t
    simp [collectLoop, ih]

theorem collectLoop_snd_completed (selectors : List String) (total : Nat) :
    ∀ (order : List (String × EvalOutcome)) (completed : Nat),
      (collectLoop selectors total order completed).2.map Progress.completed =
        List.range' (completed + 1) order.length := by
  intro order
  induction order with
  | nil => intro c; rfl
  | cons t rest ih =>
    intro c
    cases t
    simp [collectLoop, ih, List.range']

theorem collectLoop_snd_domain (selectors : List String) (total : Nat) :
    ∀ (order : List (String × EvalOutcome)) (completed : Nat),
      (collectLoop selectors total order completed).2.map Progress.domain =
        order.map Prod.fst := by
  intro order
  induction order with
  | nil => intro c; rfl
  | cons t rest ih =>
    intro c
    cases t
    simp [collectLoop, ih]

theorem collectLoop_snd_pct (selectors : List String) (total : Nat) :
    ∀ (order : List (String × EvalOutcome)) (completed : Nat),
      ∀ p ∈ (collectLoop selectors total order completed).2,
        p.total = total ∧
        p.pct = (p.completed : ℚ) * 100 / (total : ℚ) := by
  intro order
  induction order with
  | nil =>
    intro c p hp
    exact absurd hp (List.not_mem_nil p)
  | cons t rest ih =>
    intro c p hp
    cases t
    rcases List.mem_cons.mp hp with h | h
    · subst h
      exact ⟨rfl, div_mul_eq_mul_div _ _ _⟩
    · exact ih (c + 1) p h

/-! ### Claim theorems: the scan coordinator -/

/-- C2: however the submitted tasks complete (any permutation of the
task list), the coordinator accepts exactly one result per completion —
the worker's evaluation for a task that ran, the synthesized all-Error
record for a task that raised — so the collected domains are a
permutation of the submitted ones, duplicates counted separately. -/
theorem completion_accounting (selectors : List String)
    (tasks order : List (String × EvalOutcome)) (hperm : order.Perm tasks) :
    (runScan selectors order).1 =
        order.map (fun t => worker t.1 selectors t.2) ∧
    ((runScan selectors order).1.map DomainResult.domain).Perm
        (tasks.map Prod.fst) ∧
    (∀ t ∈ order, ∀ env, t.2 = EvalOutcome.ok env →
        worker t.1 selectors t.2 = check_dns_records t.1 selectors env) ∧
    (∀ t ∈ order, t.2 = EvalOutcome.fatal →
        worker t.1 selectors t.2 = errorResult t.1) := by
  simp only [runScan]
  refine ⟨collectLoop_fst selectors order.length order 0, ?_, ?_, ?_⟩
  · rw [collectLoop_fst selectors order.length order 0]
    have hmap : (order.map (fun t => worker t.1 selectors t.2)).map
        DomainResult.domain = order.map Prod.fst := by
      simp [Function.comp_def, worker_domain]
    rw [hmap]
    exact hperm.map Prod.fst
  · intro t _ env h
    rw [h]
    rfl
  · intro t _ h
    rw [h]
    rfl

/-- Concrete completion order: one task that raised, one that ran
against `envNx`. -/
def tasksW : List (String × EvalOutcome) :=
  [("a.example", EvalOutcome.fatal), ("b.example", EvalOutcome.ok envNx)]

/-- Witness for C2 at a concrete task list completing in submission
order. -/
theorem completion_accounting_witness :
    (runScan [] tasksW).1 = tasksW.map (fun t => worker t.1 [] t.2) ∧
    ((runScan [] tasksW).1.map DomainResult.domain).Perm
        (tasksW.map Prod.fst) ∧
    (∀ t ∈ tasksW, ∀ env, t.2 = EvalOutcome.ok env →
        worker t.1 [] t.2 = check_dns_records t.1 [] env) ∧
    (∀ t ∈ tasksW, t.2 = EvalOutcome.fatal →
        worker t.1 [] t.2 = errorResult t.1) :=
  completion_accounting [] tasksW tasksW (List.Perm.refl _)

/-- C8: a scan over N submitted tasks emits exactly N progress
notifications, one per completion in completion order, with completed
counters forming the sequence 1..N, the total fixed at N, and each
percentage equal to completed/N × 100 as an exact rational. -/
theorem progress_accounting (selectors : List String)
    (tasks order : List (String × EvalOutcome)) (hperm : order.Perm tasks) :
    (runScan selectors order).2.length = tasks.length ∧
    (runScan selectors order).2.map Progress.completed =
        List.range' 1 tasks.length ∧
    (runScan selectors order).2.map Progress.domain = order.map Prod.fst ∧
    ∀ p ∈ (runScan selectors order).2,
      p.total = tasks.length ∧
      p.pct = (p.completed : ℚ) * 100 / (tasks.length : ℚ) := by
  have hlen : order.length = tasks.length := hperm.length_eq
  simp only [runScan]
  refine ⟨?_, ?_, ?_, ?_⟩
  · have h := congrArg List.length
      (collectLoop_snd_domain selectors order.length order 0)
    simp only [List.length_map] at h
    rw [h, hlen]
  · rw [collectLoop_snd_completed selectors order.length order 0, hlen]
  · exact collectLoop_snd_domain selectors order.length order 0
  · intro p hp
    have h := collectLoop_snd_pct selectors order.length order 0 p hp
    rw [← hlen]
    exact h

/-- Witness for C1 at a concrete domain and DNS behaviour. -/
theorem spoofing_invariant_witness :
    ((check_dns_records "example.com" [] envNx).vulnerableToSpoofing = "No" ↔
      ((check_dns_records "example.com" [] envNx).spf = "Pass" ∧
       (check_dns_records "example.com" [] envNx).dmarc = "Pass")) ∧
    ((check_dns_records "example.com" [] envNx).vulnerableToSpoofing = "Yes" ↔
      ¬((check_dns_records "example.com" [] envNx).spf = "Pass" ∧
        (check_dns_records "example.com" [] envNx).dmarc = "Pass")) :=
  spoofing_invariant "example.com" [] envNx

/-- Witness for C6 at a concrete record text. -/
theorem validate_spf_iff_witness :
    validate_spf "v=spf1 include:example.com -all" = true ↔
      ("v=spf1".data <:+:
        (lowerStr "v=spf1 include:example.com -all").data ∧
       "all".data <:+:
        (lowerStr "v=spf1 include:example.com -all").data) :=
  validate_spf_iff "v=spf1 include:example.com -all"

/-- Witness for C10: the acceptance half of the edge case evaluated at
the concrete record. -/
theorem dmarc_sp_none_accepted_witness :
    validate_dmarc dmarcSample = true :=
  dmarc_sp_none_accepted.1

/-- Witness for C8 at a concrete task list completing in submission
order. -/
theorem progress_accounting_witness :
    (runScan [] tasksW).2.length = tasksW.length ∧
    (runScan [] tasksW).2.map Progress.completed =
        List.range' 1 tasksW.length ∧
    (runScan [] tasksW).2.map Progress.domain = tasksW.map Prod.fst ∧
    ∀ p ∈ (runScan [] tasksW).2,
      p.total = tasksW.length ∧
      p.pct = (p.completed : ℚ) * 100 / (tasksW.length : ℚ) :=
  progress_accounting [] tasksW tasksW (List.Perm.refl _)

end Scanner
